import Mathlib

/-!
# EVA exploration engine: a shallow embedding of the core state/action logic

This development embeds, in Lean 4, the parts of the EVA QA exploration engine
that its specification makes checkable claims about:

* `StateManager.computeStateId` and the in-page serializers used by
  `captureDomFingerprint` and `captureFormState` (src/core/StateManager.ts);
* `ActionDiscovery.discoverActions` and `ActionDiscovery.prioritizeActions`
  (src/core/ActionDiscovery.ts);
* `AccessibilityValidator.validate` (src/validators/AccessibilityValidator.ts).

Modelling conventions:

* JS strings are `String`; `getAttribute` results (string-or-null) are
  `Option String`; JS falsy coercion `x || ''` is `jsOrEmpty` / `jsOrStr`.
* JS numbers that carry geometry are `Rat` (exact arithmetic; the claims
  settled here do not depend on binary floating point rounding).
* The DOM is abstracted as lists of element records carrying exactly the
  attributes and computed values that the embedded in-page scripts read.
  Quantities that require walking the document tree (resolved z-index,
  ancestor ignore matches, the structural fallback selector, the text of an
  `aria-labelledby` target, uniqueness of an `aria-label`) are recorded as
  fields of the element record.
* `crypto.createHash('sha256')` / `('md5')` with `digest('hex')` are embedded
  as executable `sha256Hex` / `md5Hex` over the UTF-8 bytes of the input,
  matching Node's default `update` encoding.
-/

/-- JS coercion `x || ''` for a string-or-null/undefined value: `null`,
`undefined` and `''` all coerce to `''`. -/
def jsOrEmpty (o : Option String) : String := o.getD ""

/-- JS coercion `a || b` for two strings: the empty string is falsy. -/
def jsOrStr (a b : String) : String := if a = "" then b else a

/-- JS truthiness for a string-or-null attribute value: `null` and `''` are
falsy; any other string is kept. -/
def jsTruthyStr (o : Option String) : Option String :=
  match o with
  | none => none
  | some v => if v = "" then none else some v

/-- Take the first `n` characters of a string; this models `String.prototype
.slice(0, n)` on the ASCII and BMP strings manipulated here. -/
def jsSlice (s : String) (n : Nat) : String := String.mk (s.data.take n)

/-- Round a JS number to the nearest integer, halves toward positive
infinity, as `Math.round` does. -/
def jsRound (q : Rat) : Int := ⌊q + 1 / 2⌋

/-- Character-list based lower-casing, modelling `String.prototype
.toLowerCase` (ASCII range; the strings compared here are ASCII). -/
def jsToLower (s : String) : String := String.mk (s.data.map Char.toLower)

/-- Character-list based trimming of leading and trailing whitespace,
modelling `String.prototype.trim`. -/
def jsTrim (s : String) : String :=
  String.mk (((s.data.dropWhile Char.isWhitespace).reverse.dropWhile
    Char.isWhitespace).reverse)

/-! ## UTF-8 encoding (Node's default encoding for `hash.update(string)`) -/

/-- UTF-8 byte sequence of one scalar value. -/
def utf8BytesOfChar (c : Char) : List Nat :=
  let n := c.toNat
  if n < 0x80 then [n]
  else if n < 0x800 then
    [0xc0 ||| (n >>> 6), 0x80 ||| (n &&& 0x3f)]
  else if n < 0x10000 then
    [0xe0 ||| (n >>> 12), 0x80 ||| ((n >>> 6) &&& 0x3f), 0x80 ||| (n &&& 0x3f)]
  else
    [0xf0 ||| (n >>> 18), 0x80 ||| ((n >>> 12) &&& 0x3f),
     0x80 ||| ((n >>> 6) &&& 0x3f), 0x80 ||| (n &&& 0x3f)]

/-- UTF-8 bytes of a string. -/
def utf8Bytes (s : String) : List Nat :=
  s.data.foldr (fun c acc => utf8BytesOfChar c ++ acc) []

/-! ## SHA-256 (FIPS 180-4), over `Nat` with explicit reduction mod 2^32 -/

/-- Reduce to a 32-bit word. -/
def mod32 (n : Nat) : Nat := n % 4294967296

/-- Right rotation of a 32-bit word. -/
def rotr32 (n x : Nat) : Nat := mod32 ((x >>> n) ||| (x <<< (32 - n)))

/-- SHA-256 round constants (fractional parts of cube roots of the first 64
primes). -/
def sha256K : List Nat :=
  [0x428A2F98, 0x71374491, 0xB5C0FBCF, 0xE9B5DBA5,
   0x3956C25B, 0x59F111F1, 0x923F82A4, 0xAB1C5ED5,
   0xD807AA98, 0x12835B01, 0x243185BE, 0x550C7DC3,
   0x72BE5D74, 0x80DEB1FE, 0x9BDC06A7, 0xC19BF174,
   0xE49B69C1, 0xEFBE4786, 0x0FC19DC6, 0x240CA1CC,
   0x2DE92C6F, 0x4A7484AA, 0x5CB0A9DC, 0x76F988DA,
   0x983E5152, 0xA831C66D, 0xB00327C8, 0xBF597FC7,
   0xC6E00BF3, 0xD5A79147, 0x06CA6351, 0x14292967,
   0x27B70A85, 0x2E1B2138, 0x4D2C6DFC, 0x53380D13,
   0x650A7354, 0x766A0ABB, 0x81C2C92E, 0x92722C85,
   0xA2BFE8A1, 0xA81A664B, 0xC24B8B70, 0xC76C51A3,
   0xD192E819, 0xD6990624, 0xF40E3585, 0x106AA070,
   0x19A4C116, 0x1E376C08, 0x2748774C, 0x34B0BCB5,
   0x391C0CB3, 0x4ED8AA4A, 0x5B9CCA4F, 0x682E6FF3,
   0x748F82EE, 0x78A5636F, 0x84C87814, 0x8CC70208,
   0x90BEFFFA, 0xA4506CEB, 0xBEF9A3F7, 0xC67178F2]

/-- SHA-256 initial hash state. -/
def sha256InitH : List Nat :=
  [0x6A09E667, 0xBB67AE85, 0x3C6EF372, 0xA54FF53A,
   0x510E527F, 0x9B05688C, 0x1F83D9AB, 0x5BE0CD19]

/-- Big-endian bytes (8 of them) of a 64-bit length field. -/
def beBytes8 (n : Nat) : List Nat :=
  (List.range 8).map (fun i => (n >>> ((7 - i) * 8)) % 256)

/-- SHA-256 message padding: `0x80`, zeros to 56 mod 64, then the bit length
in 8 big-endian bytes. -/
def sha256Pad (msg : List Nat) : List Nat :=
  let l := msg.length
  let k := (64 + 56 - (l + 1) % 64) % 64
  msg ++ [0x80] ++ List.replicate k 0 ++ beBytes8 (8 * l)

/-- Split a byte list into 64-byte blocks. -/
def toBlocks (bs : List Nat) : List (List Nat) :=
  match bs with
  | [] => []
  | b :: rest => (b :: rest).take 64 :: toBlocks ((b :: rest).drop 64)
termination_by bs.length
decreasing_by simp [List.length_drop]; omega

/-- Combine bytes into 32-bit words, big-endian. -/
def bytesToWordsBE : List Nat → List Nat
  | b0 :: b1 :: b2 :: b3 :: rest =>
      ((b0 <<< 24) ||| (b1 <<< 16) ||| (b2 <<< 8) ||| b3) :: bytesToWordsBE rest
  | _ => []

/-- Message schedule: extend 16 words to 64. -/
def sha256Schedule (w16 : List Nat) : List Nat :=
  (List.range 48).foldl
    (fun w _ =>
      let j := w.length
      let s0 := rotr32 7 (w.getD (j - 15) 0) ^^^ rotr32 18 (w.getD (j - 15) 0) ^^^
        (w.getD (j - 15) 0 >>> 3)
      let s1 := rotr32 17 (w.getD (j - 2) 0) ^^^ rotr32 19 (w.getD (j - 2) 0) ^^^
        (w.getD (j - 2) 0 >>> 10)
      w ++ [mod32 (w.getD (j - 16) 0 + s0 + w.getD (j - 7) 0 + s1)])
    w16

/-- One SHA-256 compression: 64 rounds over the schedule `w`, folded into the
running hash `hs`. -/
def sha256Compress (w : List Nat) (hs : List Nat) : List Nat :=
  let st0 := (hs.getD 0 0, hs.getD 1 0, hs.getD 2 0, hs.getD 3 0,
              hs.getD 4 0, hs.getD 5 0, hs.getD 6 0, hs.getD 7 0)
  let r := (List.range 64).foldl
    (fun st t =>
      let (a, b, c, d, e, f, g, h) := st
      let s1 := rotr32 6 e ^^^ rotr32 11 e ^^^ rotr32 25 e
      let ch := (e &&& f) ^^^ ((e ^^^ 0xFFFFFFFF) &&& g)
      let t1 := mod32 (h + s1 + ch + sha256K.getD t 0 + w.getD t 0)
      let s0 := rotr32 2 a ^^^ rotr32 13 a ^^^ rotr32 22 a
      let mj := (a &&& b) ^^^ (a &&& c) ^^^ (b &&& c)
      let t2 := mod32 (s0 + mj)
      (mod32 (t1 + t2), a, b, c, mod32 (d + t1), e, f, g))
    st0
  [mod32 (hs.getD 0 0 + r.1), mod32 (hs.getD 1 0 + r.2.1),
   mod32 (hs.getD 2 0 + r.2.2.1), mod32 (hs.getD 3 0 + r.2.2.2.1),
   mod32 (hs.getD 4 0 + r.2.2.2.2.1), mod32 (hs.getD 5 0 + r.2.2.2.2.2.1),
   mod32 (hs.getD 6 0 + r.2.2.2.2.2.2.1), mod32 (hs.getD 7 0 + r.2.2.2.2.2.2.2)]

/-- SHA-256 digest of a byte list, as eight 32-bit words. -/
def sha256Digest (msg : List Nat) : List Nat :=
  (toBlocks (sha256Pad msg)).foldl
    (fun hs block => sha256Compress (sha256Schedule (bytesToWordsBE block)) hs)
    sha256InitH

/-- Lower-case hex digit. -/
def hexChar (n : Nat) : Char :=
  if n < 10 then Char.ofNat (48 + n) else Char.ofNat (87 + n)

/-- Fixed-width hex rendering of a word: exactly `d` hex digits, most
significant first. -/
def wordHexChars (d : Nat) (w : Nat) : List Char :=
  (List.range d).map (fun i => hexChar ((w >>> ((d - 1 - i) * 4)) % 16))

/-- Hex string of a word list, 8 hex digits per 32-bit word. -/
def wordsToHexChars (ws : List Nat) : List Char :=
  ws.foldr (fun w acc => wordHexChars 8 w ++ acc) []

/-- The hex digest `createHash('sha256').update(s).digest('hex')`. -/
def sha256Hex (s : String) : String :=
  String.mk (wordsToHexChars (sha256Digest (utf8Bytes s)))

/-! ## MD5 (RFC 1321), used by `captureDomFingerprint` via `createHash('md5')` -/

/-- MD5 per-round constants (the standard sine-derived table). -/
def md5K : List Nat :=
  [0xD76AA478, 0xE8C7B756, 0x242070DB, 0xC1BDCEEE,
   0xF57C0FAF, 0x4787C62A, 0xA8304613, 0xFD469501,
   0x698098D8, 0x8B44F7AF, 0xFFFF5BB1, 0x895CD7BE,
   0x6B901122, 0xFD987193, 0xA679438E, 0x49B40821,
   0xF61E2562, 0xC040B340, 0x265E5A51, 0xE9B6C7AA,
   0xD62F105D, 0x02441453, 0xD8A1E681, 0xE7D3FBC8,
   0x21E1CDE6, 0xC33707D6, 0xF4D50D87, 0x455A14ED,
   0xA9E3E905, 0xFCEFA3F8, 0x676F02D9, 0x8D2A4C8A,
   0xFFFA3942, 0x8771F681, 0x6D9D6122, 0xFDE5380C,
   0xA4BEEA44, 0x4BDECFA9, 0xF6BB4B60, 0xBEBFBC70,
   0x289B7EC6, 0xEAA127FA, 0xD4EF3085, 0x04881D05,
   0xD9D4D039, 0xE6DB99E5, 0x1FA27CF8, 0xC4AC5665,
   0xF4292244, 0x432AFF97, 0xAB9423A7, 0xFC93A039,
   0x655B59C3, 0x8F0CCC92, 0xFFEFF47D, 0x85845DD1,
   0x6FA87E4F, 0xFE2CE6E0, 0xA3014314, 0x4E0811A1,
   0xF7537E82, 0xBD3AF235, 0x2AD7D2BB, 0xEB86D391]

/-- MD5 per-round left-rotation amounts. -/
def md5S : List Nat :=
  [7, 12, 17, 22, 7, 12, 17, 22, 7, 12, 17, 22, 7, 12, 17, 22,
   5, 9, 14, 20, 5, 9, 14, 20, 5, 9, 14, 20, 5, 9, 14, 20,
   4, 11, 16, 23, 4, 11, 16, 23, 4, 11, 16, 23, 4, 11, 16, 23,
   6, 10, 15, 21, 6, 10, 15, 21, 6, 10, 15, 21, 6, 10, 15, 21]

/-- Left rotation of a 32-bit word. -/
def rotl32 (n x : Nat) : Nat := mod32 ((x <<< n) ||| (x >>> (32 - n)))

/-- Bitwise complement of a 32-bit word. -/
def not32 (x : Nat) : Nat := x ^^^ 0xFFFFFFFF

/-- MD5 message padding: `0x80`, zeros to 56 mod 64, then the bit length in 8
little-endian bytes. -/
def md5Pad (msg : List Nat) : List Nat :=
  let l := msg.length
  let k := (64 + 56 - (l + 1) % 64) % 64
  msg ++ [0x80] ++ List.replicate k 0 ++
    (List.range 8).map (fun i => ((8 * l) >>> (8 * i)) % 256)

/-- Combine bytes into 32-bit words, little-endian. -/
def bytesToWordsLE : List Nat → List Nat
  | b0 :: b1 :: b2 :: b3 :: rest =>
      (b0 ||| (b1 <<< 8) ||| (b2 <<< 16) ||| (b3 <<< 24)) :: bytesToWordsLE rest
  | _ => []

/-- One MD5 block transformation: 64 operations over the block words `m`,
folded into the running state `hs = [a0, b0, c0, d0]`. -/
def md5Compress (m : List Nat) (hs : List Nat) : List Nat :=
  let r := (List.range 64).foldl
    (fun st i =>
      let (a, b, c, d) := st
      let f :=
        if i < 16 then (b &&& c) ||| (not32 b &&& d)
        else if i < 32 then (d &&& b) ||| (not32 d &&& c)
        else if i < 48 then b ^^^ c ^^^ d
        else c ^^^ (b ||| not32 d)
      let g :=
        if i < 16 then i
        else if i < 32 then (5 * i + 1) % 16
        else if i < 48 then (3 * i + 5) % 16
        else (7 * i) % 16
      let f' := mod32 (f + a + md5K.getD i 0 + m.getD g 0)
      (d, mod32 (b + rotl32 (md5S.getD i 0) f'), b, c))
    (hs.getD 0 0, hs.getD 1 0, hs.getD 2 0, hs.getD 3 0)
  [mod32 (hs.getD 0 0 + r.1), mod32 (hs.getD 1 0 + r.2.1),
   mod32 (hs.getD 2 0 + r.2.2.1), mod32 (hs.getD 3 0 + r.2.2.2)]

/-- MD5 digest of a byte list, as four 32-bit words `[a, b, c, d]`. -/
def md5Digest (msg : List Nat) : List Nat :=
  (toBlocks (md5Pad msg)).foldl
    (fun hs block => md5Compress (bytesToWordsLE block) hs)
    [0x67452301, 0xEFCDAB89, 0x98BADCFE, 0x10325476]

/-- The hex digest `createHash('md5').update(s).digest('hex')`: the four
state words are printed byte-wise, least significant byte first. -/
def md5Hex (s : String) : String :=
  String.mk ((md5Digest (utf8Bytes s)).foldr
    (fun w acc =>
      ((List.range 4).map (fun i => (w >>> (8 * i)) % 256)).foldr
        (fun b acc2 => wordHexChars 2 b ++ acc2) [] ++ acc)
    [])

/-! ## StateManager: state identity (src/core/StateManager.ts) -/

/-- The `sensitivity` option of `StateManagerOptions`. -/
inductive Sensitivity where
  | low
  | medium
  | high
deriving DecidableEq

/-- The value captured by `captureFormState`: a form selector and a
`Record<string, string>` of field values (in insertion order). -/
structure FormSnapshot where
  selector : String
  fields : List (String × String)
deriving DecidableEq

/-- A `Partial<AppState>`: every field optional, as fed to `computeStateId`.
The backend snapshot and auth state are opaque payloads here; `modalOpen`
is `string | null` in `AppState`, and `none` models both `null` and an
absent field (they behave identically under the `|| ''` coercion). -/
structure PartialAppState where
  id : Option String := none
  url : Option String := none
  pathname : Option String := none
  title : Option String := none
  domFingerprint : Option String := none
  modalOpen : Option String := none
  formState : Option FormSnapshot := none
  dbSnapshot : Option String := none
  authState : Option String := none
  viewport : Option String := none
  timestamp : Option Nat := none
deriving DecidableEq

/-- Options record `StateManagerOptions` after merging with defaults. -/
structure StateManagerOptions where
  includeQueryParams : Bool := true
  includeHash : Bool := false
  sensitivity : Sensitivity := .medium
  customIdentity : Option (PartialAppState → String) := none

/-- The `components.join('|')` string that `computeStateId` hashes: path,
DOM fingerprint, modal marker and viewport, each coerced through `|| ''`. -/
def digestInput (state : PartialAppState) : String :=
  String.intercalate "|"
    [jsOrEmpty state.pathname, jsOrEmpty state.domFingerprint,
     jsOrEmpty state.modalOpen, jsOrEmpty state.viewport]

/-- Function `StateManager.computeStateId`: a configured custom identity function
wins; otherwise the id is the first 16 hex characters of the SHA-256 of
`digestInput`. -/
def computeStateId (opts : StateManagerOptions) (state : PartialAppState) : String :=
  match opts.customIdentity with
  | some f => f state
  | none => jsSlice (sha256Hex (digestInput state)) 16

/-! ## StateManager: DOM fingerprinting (`captureDomFingerprint`) -/

/-- One element as seen by the in-page fingerprint script: the tag, the
attributes it reads, the text content, the bounding-box origin, and the
visibility inputs of the skip test. -/
structure FPElem where
  tagName : String
  role : Option String := none
  textContent : String := ""
  rectX : Rat := 0
  rectY : Rat := 0
  idAttr : Option String := none
  nameAttr : Option String := none
  typeAttr : Option String := none
  href : Option String := none
  ariaLabel : Option String := none
  dataTestid : Option String := none
  offsetParentNull : Bool := false
  styleDisplay : String := ""
deriving DecidableEq

/-- The fingerprint script's hidden-element test: it skips an element when
`offsetParent` is null and the element's own inline `display` is not
`'none'`. -/
def fpSkipHidden (e : FPElem) : Bool :=
  e.offsetParentNull && !(e.styleDisplay == "none")

/-- The key-attribute suffix appended to every signature: each of `id`,
`name`, `type`, `href`, `aria-label`, `data-testid` that is present and
non-empty contributes `[attr=value]` with the value truncated to 30. -/
def fpAttrSuffix (e : FPElem) : String :=
  ([("id", e.idAttr), ("name", e.nameAttr), ("type", e.typeAttr),
    ("href", e.href), ("aria-label", e.ariaLabel),
    ("data-testid", e.dataTestid)]).foldl
    (fun acc p =>
      match jsTruthyStr p.2 with
      | some v => acc ++ "[" ++ p.1 ++ "=" ++ jsSlice v 30 ++ "]"
      | none => acc)
    ""

/-- The tag-and-role prefix every signature starts with. -/
def fpTagRole (e : FPElem) : String :=
  jsToLower e.tagName ++ jsOrEmpty e.role

/-- The truncated-text component added at `medium` and `high` sensitivity. -/
def fpTextPart (e : FPElem) : String :=
  jsSlice (jsTrim e.textContent) 50

/-- The rounded-position component added at `high` sensitivity. -/
def fpPosPart (e : FPElem) : String :=
  toString (jsRound e.rectX) ++ "," ++ toString (jsRound e.rectY)

/-- One element's signature, built exactly as the in-page script does:
tag and role always; truncated text at `medium`/`high`; rounded position at
`high`; then the key attributes. -/
def buildSignature (sens : Sensitivity) (e : FPElem) : String :=
  let s := jsToLower e.tagName ++ jsOrEmpty e.role
  let s := if sens = .medium ∨ sens = .high then s ++ jsSlice (jsTrim e.textContent) 50 else s
  let s := if sens = .high then
    s ++ toString (jsRound e.rectX) ++ "," ++ toString (jsRound e.rectY) else s
  s ++ fpAttrSuffix e

/-- The signatures of the non-skipped elements, in document order. -/
def fpSignatures (sens : Sensitivity) (elems : List FPElem) : List String :=
  elems.filterMap (fun e => if fpSkipHidden e then none else some (buildSignature sens e))

/-- String comparison used to model JS `Array.prototype.sort()` on the
signature strings (lexicographic; total). -/
def fpStrLe (a b : String) : Prop := a ≤ b

instance : DecidableRel fpStrLe := fun a b => inferInstanceAs (Decidable (a ≤ b))

instance : IsTotal String fpStrLe := ⟨fun a b => le_total a b⟩

instance : IsTrans String fpStrLe := ⟨fun _ _ _ h h' => le_trans h h'⟩

instance : IsAntisymm String fpStrLe := ⟨fun _ _ h h' => le_antisymm h h'⟩

/-- The canonical serialized fingerprint: `signatures.sort().join('|')`. -/
def serializeFingerprint (sens : Sensitivity) (elems : List FPElem) : String :=
  String.intercalate "|" ((fpSignatures sens elems).insertionSort fpStrLe)

/-- Function `StateManager.captureDomFingerprint`: the serialized fingerprint is
hashed with MD5 and truncated to 12 hex characters. -/
def captureDomFingerprint (sens : Sensitivity) (elems : List FPElem) : String :=
  jsSlice (md5Hex (serializeFingerprint sens elems)) 12

/-! ## StateManager: form snapshotting (`captureFormState`) -/

/-- One `input`, `select` or `textarea` inside the captured form, with the
properties the in-page script reads (`name`, `id` and `placeholder` are
string properties, empty when unset; `aria-label` is an attribute). -/
structure FormInput where
  nameAttr : String := ""
  idAttr : String := ""
  ariaLabel : Option String := none
  placeholder : String := ""
  typeAttr : String := "text"
  checked : Bool := false
  value : String := ""
deriving DecidableEq

/-- The field key chosen for an input: `name || id || aria-label ||
placeholder || 'field-N'` where `N` is the current number of captured
fields. -/
def formFieldName (fieldsSoFar : Nat) (i : FormInput) : String :=
  jsOrStr i.nameAttr
    (jsOrStr i.idAttr
      (jsOrStr (jsOrEmpty i.ariaLabel)
        (jsOrStr i.placeholder ("field-" ++ toString fieldsSoFar))))

/-- JS object assignment `fields[name] = value`: overwrite in place if the
key exists, else append. Keys stay distinct, so `Object.keys(fields).length`
is the list length. -/
def objSet (fields : List (String × String)) (k v : String) : List (String × String) :=
  match fields with
  | [] => [(k, v)]
  | (k', v') :: rest =>
      if k' = k then (k', v) :: rest else (k', v') :: objSet rest k v

/-- Whether the script skips this input as sensitive. -/
def sensitiveInput (i : FormInput) : Bool :=
  i.typeAttr == "password" || i.typeAttr == "hidden"

/-- The capture loop of `captureFormState` over the form's inputs: compute
the key, skip password/hidden fields, record `checked`/`unchecked` for
checkboxes and radios, else the value. -/
def captureFormFieldsFrom (acc : List (String × String)) :
    List FormInput → List (String × String)
  | [] => acc
  | i :: rest =>
      let name := formFieldName acc.length i
      if sensitiveInput i then
        captureFormFieldsFrom acc rest
      else if i.typeAttr == "checkbox" || i.typeAttr == "radio" then
        captureFormFieldsFrom (objSet acc name (if i.checked then "checked" else "unchecked")) rest
      else
        captureFormFieldsFrom (objSet acc name i.value) rest

/-- The `fields` record produced by `captureFormState` for a form. -/
def captureFormFields (inputs : List FormInput) : List (String × String) :=
  captureFormFieldsFrom [] inputs

/-- The captured form: its inputs in document order, plus the selector the
script synthesizes for the form element (id / name / action based; the
synthesis is URL-dependent and abstracted as a field here). -/
structure FormElem where
  inputs : List FormInput
  formSelector : String := "form"
deriving DecidableEq

/-- Function `StateManager.captureFormState` restricted to the found form (`null`
when no form is visible). -/
def captureFormState (form : Option FormElem) : Option FormSnapshot :=
  form.map (fun f => { selector := f.formSelector, fields := captureFormFields f.inputs })

/-! ## ActionDiscovery (src/core/ActionDiscovery.ts) -/

/-- Bounding geometry of a discovered element. -/
structure BoundingBox where
  x : Rat
  y : Rat
  width : Rat
  height : Rat
deriving DecidableEq

/-- A `DiscoveredAction` record as produced by `discoverActions`. -/
structure DiscoveredAction where
  type : String
  selector : String
  label : String
  tagName : String
  role : Option String
  visible : Bool
  enabled : Bool
  destructive : Bool
  boundingBox : Option BoundingBox
  value : Option String := none
  zIndex : Option Int
deriving DecidableEq

/-- Whether `n` is a leading subsequence of `h` (character-exact). -/
def leadsWith : List Char → List Char → Bool
  | [], _ => true
  | _ :: _, [] => false
  | a :: as, b :: bs => a == b && leadsWith as bs

/-- Whether `p` holds of some suffix of the list. -/
def anySuffixHolds (p : List Char → Bool) : List Char → Bool
  | [] => p []
  | c :: rest => p (c :: rest) || anySuffixHolds p rest

/-- JS `String.prototype.includes`. -/
def containsSub (needle hay : String) : Bool :=
  anySuffixHolds (leadsWith needle.data) hay.data

/-- The case-insensitive test `/submit|save|create|add/i.test(label)`. -/
def submitLabelMatch (label : String) : Bool :=
  let l := jsToLower label
  containsSub "submit" l || containsSub "save" l ||
    containsSub "create" l || containsSub "add" l

/-- The additive score of `prioritizeActions`' inner `getPriority`:
button/a +10; input/select/textarea +5 (the `|| ''` coercion on `tagName`
is the identity on the membership test); a label containing `nav` +8;
submit/save/create/add labels +15; destructive −5; plus `zIndex / 100`. -/
def getPriority (a : DiscoveredAction) : Rat :=
  let p : Rat := 0
  let p := if a.tagName = "button" ∨ a.tagName = "a" then p + 10 else p
  let p := if a.tagName ∈ ["input", "select", "textarea"] then p + 5 else p
  let p := if containsSub "nav" (jsToLower a.label) then p + 8 else p
  let p := if submitLabelMatch a.label then p + 15 else p
  let p := if a.destructive then p - 5 else p
  p + ((a.zIndex.getD 0 : Int) : Rat) / 100

/-- The order `prioritizeActions` sorts into: descending priority. -/
def priorityGe (a b : DiscoveredAction) : Prop := getPriority b ≤ getPriority a

instance : DecidableRel priorityGe :=
  fun a b => inferInstanceAs (Decidable (getPriority b ≤ getPriority a))

instance : IsTotal DiscoveredAction priorityGe :=
  ⟨fun a b => le_total (getPriority b) (getPriority a)⟩

instance : IsTrans DiscoveredAction priorityGe :=
  ⟨fun _ _ _ h1 h2 => le_trans h2 h1⟩

/-- Function `ActionDiscovery.prioritizeActions`, that is `[...actions].sort((a, b) =>
getPriority(b) - getPriority(a))`. Node's `Array.prototype.sort` is stable,
and every stable sort for a total preorder produces the same list, so the
call is embedded as a stable insertion sort under `priorityGe`. -/
def prioritizeActions (l : List DiscoveredAction) : List DiscoveredAction :=
  l.insertionSort priorityGe

/-- One candidate element as seen by the in-page discovery script: the
attributes and computed properties the script reads. Tree-global inputs —
the result of the `getZIndex` ancestor walk, whether `el.closest` hits an
ignore selector, the structural fallback selector, the text of the
`aria-labelledby` target, document-wide uniqueness of the `aria-label` —
are recorded as fields. -/
structure ElemDA where
  tagName : String
  idAttr : String := ""
  dataTestid : Option String := none
  ariaLabel : Option String := none
  ariaLabelledBy : Option String := none
  labelledByText : Option String := none
  titleAttr : Option String := none
  innerText : String := ""
  textContent : String := ""
  placeholder : Option String := none
  nameAttr : Option String := none
  typeAttr : Option String := none
  role : Option String := none
  href : Option String := none
  hasOnclick : Bool := false
  tabindex : Option String := none
  forAttr : Option String := none
  className : String := ""
  hasDisabledAttr : Bool := false
  ariaDisabled : Option String := none
  ariaHidden : Option String := none
  hasDataNoExplore : Bool := false
  ancestorIgnored : Bool := false
  offsetParentNull : Bool := false
  positionFixed : Bool := false
  rectX : Rat := 0
  rectY : Rat := 0
  rectW : Rat := 0
  rectH : Rat := 0
  rectTop : Rat := 0
  rectBottom : Rat := 0
  rectLeft : Rat := 0
  rectRight : Rat := 0
  visibilityHidden : Bool := false
  opacityZero : Bool := false
  zIndexWalk : Int := 0
  pathSelector : String := "div > *"
  ariaLabelUnique : Bool := true
deriving DecidableEq

/-- The window geometry the viewport test reads. -/
structure PageEnv where
  innerWidth : Rat := 1280
  innerHeight : Rat := 720
deriving DecidableEq

/-- Options record `ActionDiscoveryOptions` after merging with defaults (the selector
tables stay at their defaults; caller-supplied extra ignore selectors are
modelled as a semantic predicate passed to `discoverActions`). -/
structure DAOptions where
  includeDisabled : Bool := false
  minClickableSize : Rat := 1
  maxActions : Nat := 100

/-- Whether the element matches one entry of `DEFAULT_INTERACTIVE_SELECTORS`
(HTML tag names match case-insensitively). -/
def matchesInteractive (e : ElemDA) : Bool :=
  let tag := jsToLower e.tagName
  (tag == "button" && !e.hasDisabledAttr) ||
  (tag == "a" && (match e.href with | some h => !(h == "") | none => false)) ||
  (tag == "input" && !e.hasDisabledAttr && !(e.typeAttr == some "hidden")) ||
  (tag == "select" && !e.hasDisabledAttr) ||
  (tag == "textarea" && !e.hasDisabledAttr) ||
  (e.role == some "button" && !(e.ariaDisabled == some "true")) ||
  e.role == some "link" || e.role == some "tab" || e.role == some "menuitem" ||
  e.role == some "checkbox" || e.role == some "radio" || e.role == some "switch" ||
  e.role == some "combobox" || e.role == some "listbox" || e.role == some "option" ||
  e.hasOnclick ||
  (match e.tabindex with | some t => !(t == "-1") | none => false) ||
  tag == "summary" ||
  (tag == "label" && e.forAttr.isSome)

/-- Whether the element itself matches one of `DEFAULT_IGNORE_SELECTORS`. -/
def matchesDefaultIgnore (e : ElemDA) : Bool :=
  e.ariaHidden == some "true" || e.dataTestid == some "skip-exploration" ||
    e.hasDataNoExplore

/-- The script's `shouldIgnore`: the element or an ancestor matches an
ignore selector (default or caller-supplied). -/
def shouldIgnore (extra : ElemDA → Bool) (e : ElemDA) : Bool :=
  matchesDefaultIgnore e || e.ancestorIgnored || extra e

/-- The script's `isVisible` helper. -/
def isVisibleDA (e : ElemDA) : Bool :=
  if e.offsetParentNull && !e.positionFixed then false
  else if e.rectW == 0 || e.rectH == 0 then false
  else if e.visibilityHidden || e.opacityZero then false
  else true

/-- The script's `isInViewport` helper; `top`, `bottom`, `left` and `right`
are the sides `getBoundingClientRect` reports directly. -/
def isInViewportDA (pg : PageEnv) (e : ElemDA) : Bool :=
  decide (e.rectTop < pg.innerHeight) && decide (0 < e.rectBottom) &&
    decide (e.rectLeft < pg.innerWidth) && decide (0 < e.rectRight)

/-- The `disabled` test: a `disabled` attribute or `aria-disabled="true"`. -/
def hasDisabledMarker (e : ElemDA) : Bool :=
  e.hasDisabledAttr || e.ariaDisabled == some "true"

/-- Stage of `getLabel` from the placeholder attribute downward. -/
def labelFromPlaceholder (e : ElemDA) : String :=
  match jsTruthyStr e.placeholder with
  | some v => jsTrim v
  | none =>
      let name := jsOrStr (jsOrEmpty e.nameAttr) e.idAttr
      if name = "" then jsToLower e.tagName else name

/-- Stage of `getLabel` from the text content downward. -/
def labelFromText (e : ElemDA) : String :=
  let text := jsOrStr e.innerText e.textContent
  if text = "" then labelFromPlaceholder e
  else
    let trimmed := jsSlice (jsTrim text) 100
    if trimmed = "" then labelFromPlaceholder e else trimmed

/-- Stage of `getLabel` from the title attribute downward. -/
def labelFromTitle (e : ElemDA) : String :=
  match jsTruthyStr e.titleAttr with
  | some v => jsTrim v
  | none => labelFromText e

/-- The script's `getLabel`: aria-label, then the text of the
`aria-labelledby` target, then title, text, placeholder, name/id, tag. -/
def getLabelDA (e : ElemDA) : String :=
  match jsTruthyStr e.ariaLabel with
  | some v => jsTrim v
  | none =>
      match jsTruthyStr e.ariaLabelledBy, jsTruthyStr e.labelledByText with
      | some _, some t => jsTrim t
      | _, _ => labelFromTitle e

/-- The script's `getSelector`: id, then `data-testid`, then a
document-unique `aria-label`, else the structural path (the path synthesis
and `CSS.escape` — the identity on the values used here — are abstracted
into `pathSelector`). -/
def getSelectorDA (e : ElemDA) : String :=
  if e.idAttr ≠ "" then "#" ++ e.idAttr
  else
    match jsTruthyStr e.dataTestid with
    | some t => "[data-testid=\"" ++ t ++ "\"]"
    | none =>
        match jsTruthyStr e.ariaLabel with
        | some al =>
            if e.ariaLabelUnique then "[aria-label=\"" ++ al ++ "\"]"
            else e.pathSelector
        | none => e.pathSelector

/-- The script's `getActionType`. -/
def getActionTypeDA (e : ElemDA) : String :=
  let tag := jsToLower e.tagName
  if tag = "input" then
    if e.typeAttr == some "checkbox" || e.role == some "checkbox" then "check"
    else if e.typeAttr == some "radio" || e.role == some "radio" then "check"
    else if e.typeAttr == some "file" then "upload"
    else "fill"
  else if tag = "textarea" then "fill"
  else if tag = "select" || e.role == some "combobox" || e.role == some "listbox" then
    "select"
  else "click"

/-- A character the regex `.` matches (anything but a line terminator). -/
def regexDotChar (c : Char) : Bool :=
  !(c == '\n' || c == '\r' || c.toNat == 0x2028 || c.toNat == 0x2029)

/-- Whether `/sign.?out/` matches at the head of the character list. -/
def signOutAt (l : List Char) : Bool :=
  leadsWith "sign".data l &&
    (leadsWith "out".data (l.drop 4) ||
      (match l.drop 4 with
       | c :: rest => regexDotChar c && leadsWith "out".data rest
       | [] => false))

/-- The test `/sign.?out/i.test(s)` on an already-lowercased string. -/
def signOutMatch (s : String) : Bool := anySuffixHolds signOutAt s.data

/-- The script's `isDestructive`: the configurable keyword patterns tested
against label plus class name, case-insensitively. -/
def isDestructiveDA (label : String) (e : ElemDA) : Bool :=
  let tl := jsToLower (label ++ " " ++ e.className)
  containsSub "delete" tl || containsSub "remove" tl || containsSub "destroy" tl ||
    containsSub "logout" tl || signOutMatch tl || containsSub "cancel" tl ||
    containsSub "close" tl || containsSub "discard" tl || containsSub "clear" tl

/-- The record the discovery loop pushes for a surviving element. -/
def toDiscoveredRecord (pg : PageEnv) (e : ElemDA) : DiscoveredAction :=
  { type := getActionTypeDA e,
    selector := getSelectorDA e,
    label := getLabelDA e,
    tagName := jsToLower e.tagName,
    role := e.role,
    visible := isVisibleDA e && isInViewportDA pg e,
    enabled := !hasDisabledMarker e,
    destructive := isDestructiveDA (getLabelDA e) e,
    boundingBox := some { x := e.rectX, y := e.rectY, width := e.rectW, height := e.rectH },
    value := none,
    zIndex := some e.zIndexWalk }

/-- One iteration of the discovery loop body for element `e`: skip ignored,
disabled (unless requested), invisible and too-small elements, deduplicate
by selector, else push the record. -/
def discoverStep (pg : PageEnv) (opts : DAOptions) (extra : ElemDA → Bool)
    (acc : List DiscoveredAction) (e : ElemDA) : List DiscoveredAction :=
  if shouldIgnore extra e then acc
  else
    let visible := isVisibleDA e && isInViewportDA pg e
    let enabled := !hasDisabledMarker e
    if !opts.includeDisabled && !enabled then acc
    else if !visible then acc
    else if e.rectW < opts.minClickableSize ∨ e.rectH < opts.minClickableSize then acc
    else
      let sel := getSelectorDA e
      if acc.any (fun d => d.selector == sel) then acc
      else acc ++ [toDiscoveredRecord pg e]

/-- The discovery loop over the elements matching the interactive selector
set, in document order, stopping at the action cap. -/
def discoverLoop (pg : PageEnv) (opts : DAOptions) (extra : ElemDA → Bool)
    (acc : List DiscoveredAction) : List ElemDA → List DiscoveredAction
  | [] => acc
  | e :: rest =>
      if acc.length ≥ opts.maxActions then acc
      else discoverLoop pg opts extra (discoverStep pg opts extra acc e) rest

/-- The final in-page sort comparator: z-index descending, then reading
order (top to bottom outside a 50px band, left to right inside it). -/
def daCompare (a b : DiscoveredAction) : Rat :=
  if (b.zIndex.getD 0 : Int) ≠ (a.zIndex.getD 0 : Int) then
    (((b.zIndex.getD 0 : Int) - (a.zIndex.getD 0 : Int) : Int) : Rat)
  else
    match a.boundingBox, b.boundingBox with
    | some ba, some bb =>
        if |ba.y - bb.y| > 50 then ba.y - bb.y else ba.x - bb.x
    | _, _ => 0

/-- Order relation for the final sort (the comparator is not a total
preorder on arbitrary geometry, so JS leaves the order implementation
defined there; the model commits to the stable insertion sort order). -/
def daOrder (a b : DiscoveredAction) : Prop := daCompare a b ≤ 0

instance : DecidableRel daOrder :=
  fun a b => inferInstanceAs (Decidable (daCompare a b ≤ 0))

/-- Post-processing applied after `page.evaluate` returns:
`role: a.role || undefined` and `boundingBox: a.boundingBox || undefined`. -/
def postAdjust (a : DiscoveredAction) : DiscoveredAction :=
  { a with role := jsTruthyStr a.role }

/-- Function `ActionDiscovery.discoverActions` over the abstract document (the
element list stands for `document.querySelectorAll` output in document
order; `extra` is the semantic denotation of caller-supplied additional
ignore selectors). -/
def discoverActions (pg : PageEnv) (opts : DAOptions) (extra : ElemDA → Bool)
    (elems : List ElemDA) : List DiscoveredAction :=
  let raw := discoverLoop pg opts extra [] (elems.filter matchesInteractive)
  (raw.insertionSort daOrder).map postAdjust

/-- The loop body with the disabled-element filter removed entirely: used
to state that `includeDisabled: true` makes that filter transparent. -/
def discoverStepAll (pg : PageEnv) (opts : DAOptions) (extra : ElemDA → Bool)
    (acc : List DiscoveredAction) (e : ElemDA) : List DiscoveredAction :=
  if shouldIgnore extra e then acc
  else
    let visible := isVisibleDA e && isInViewportDA pg e
    if !visible then acc
    else if e.rectW < opts.minClickableSize ∨ e.rectH < opts.minClickableSize then acc
    else
      let sel := getSelectorDA e
      if acc.any (fun d => d.selector == sel) then acc
      else acc ++ [toDiscoveredRecord pg e]

/-- The discovery loop with the disabled-element filter removed. -/
def discoverLoopAll (pg : PageEnv) (opts : DAOptions) (extra : ElemDA → Bool)
    (acc : List DiscoveredAction) : List ElemDA → List DiscoveredAction
  | [] => acc
  | e :: rest =>
      if acc.length ≥ opts.maxActions then acc
      else discoverLoopAll pg opts extra (discoverStepAll pg opts extra acc e) rest

/-- Pipeline `discoverActions` without the disabled filter. -/
def discoverActionsAll (pg : PageEnv) (opts : DAOptions) (extra : ElemDA → Bool)
    (elems : List ElemDA) : List DiscoveredAction :=
  let raw := discoverLoopAll pg opts extra [] (elems.filter matchesInteractive)
  (raw.insertionSort daOrder).map postAdjust

/-! ## AccessibilityValidator (src/validators/AccessibilityValidator.ts) -/

/-- Issue severities, ordered as in `SEVERITY_ORDER`. -/
inductive IssueSeverity where
  | critical
  | serious
  | moderate
  | minor
deriving DecidableEq

/-- The index of a severity in `SEVERITY_ORDER = [critical, serious,
moderate, minor]`. -/
def severityIndex : IssueSeverity → Nat
  | .critical => 0
  | .serious => 1
  | .moderate => 2
  | .minor => 3

/-- Table `IMPACT_TO_SEVERITY` as a partial lookup on axe impact strings. -/
def impactToSeverity (impact : String) : Option IssueSeverity :=
  if impact = "critical" then some .critical
  else if impact = "serious" then some .serious
  else if impact = "moderate" then some .moderate
  else if impact = "minor" then some .minor
  else none

/-- One node of an axe check result. -/
structure AxeNode where
  html : String := ""
  target : List String := []
  failureSummary : Option String := none
deriving DecidableEq

/-- One axe violation or incomplete check result. -/
structure AxeCheck where
  id : String
  impact : Option String := none
  description : String := ""
  helpUrl : String := ""
  help : String := ""
  tags : List String := []
  nodes : List AxeNode := []
deriving DecidableEq

/-- The outcome of `builder.analyze()`. -/
structure AxeResults where
  violations : List AxeCheck := []
  incomplete : List AxeCheck := []
deriving DecidableEq

/-- The heterogeneous `details` payload attached to an issue. -/
inductive IssueDetails where
  | forViolation (help : String) (impact : Option String) (tags : List String)
      (nodes : List AxeNode)
  | forIncomplete (help : String) (needsReview : Bool) (nodes : Nat)
  | forScanError (error : String)
deriving DecidableEq

/-- An `Issue` as the validator reports it. -/
structure Issue where
  type : String
  severity : IssueSeverity
  rule : String
  description : String
  helpUrl : Option String := none
  viewport : String
  elements : Option (List String) := none
  details : IssueDetails
deriving DecidableEq

/-- A `ValidatorResult`. -/
structure ValidatorResult where
  validator : String
  issues : List Issue
  duration : Nat
deriving DecidableEq

/-- Config record `AccessibilityValidatorConfig` after merging with defaults. -/
structure A11yConfig where
  enabled : Bool := true
  rules : List String := ["wcag21aa"]
  exclude : List String := []
  disableRules : List String := []
  ignoredRules : List String := []
  minSeverity : Option IssueSeverity := some .minor

/-- The violation loop body: skip ignored rules, map impact to severity,
apply the minimum-severity filter, and build the issue. -/
def violationToIssue (cfg : A11yConfig) (viewport : String) (v : AxeCheck) :
    Option Issue :=
  if cfg.ignoredRules.contains v.id then none
  else
    let severity := (impactToSeverity (jsOrStr (jsOrEmpty v.impact) "minor")).getD .minor
    let filtered : Bool :=
      match cfg.minSeverity with
      | some m => decide (severityIndex severity > severityIndex m)
      | none => false
    if filtered then none
    else
      some
        { type := "accessibility",
          severity := severity,
          rule := v.id,
          description := v.description,
          helpUrl := some v.helpUrl,
          viewport := viewport,
          elements := some (v.nodes.map (fun n => String.intercalate " > " n.target)),
          details := .forViolation v.help v.impact v.tags v.nodes }

/-- The incomplete-check loop body: always a minor issue with the rule id
suffixed `-incomplete`, with no ignored-rule or severity filtering. -/
def incompleteToIssue (viewport : String) (inc : AxeCheck) : Issue :=
  { type := "accessibility",
    severity := .minor,
    rule := inc.id ++ "-incomplete",
    description := "Manual review needed: " ++ inc.description,
    helpUrl := some inc.helpUrl,
    viewport := viewport,
    elements := some (inc.nodes.map (fun n => String.intercalate " > " n.target)),
    details := .forIncomplete inc.help true inc.nodes.length }

/-- The issue the `catch` branch pushes when the scan throws. -/
def scanErrorIssue (viewport message : String) : Issue :=
  { type := "accessibility",
    severity := .moderate,
    rule := "scan-error",
    description := "Accessibility scan failed: " ++ message,
    helpUrl := none,
    viewport := viewport,
    elements := none,
    details := .forScanError message }

/-- Function `AccessibilityValidator.validate`. The axe scan is the one fallible
step; its outcome is passed as `Except` (an `error` value is a thrown
exception with the given message), and `elapsed` stands for the measured
wall-clock duration. The function is total: every input, including a
throwing scan, yields a `ValidatorResult`. -/
def validate (cfg : A11yConfig) (viewport : String)
    (scan : Except String AxeResults) (elapsed : Nat) : ValidatorResult :=
  if !cfg.enabled then { validator := "accessibility", issues := [], duration := 0 }
  else
    match scan with
    | .ok results =>
        { validator := "accessibility",
          issues := results.violations.filterMap (violationToIssue cfg viewport) ++
            results.incomplete.map (incompleteToIssue viewport),
          duration := elapsed }
    | .error msg =>
        { validator := "accessibility",
          issues := [scanErrorIssue viewport msg],
          duration := elapsed }

/-! ## Auxiliary lemmas -/

theorem jsSlice_length (s : String) (n : Nat) :
    (jsSlice s n).length = min n s.length := by
  show (s.data.take n).length = min n s.data.length
  simp

theorem wordHexChars_length (d w : Nat) : (wordHexChars d w).length = d := by
  simp [wordHexChars]

theorem wordsToHexChars_length (ws : List Nat) :
    (wordsToHexChars ws).length = 8 * ws.length := by
  induction ws with
  | nil => simp [wordsToHexChars]
  | cons w rest ih =>
      simp [wordsToHexChars] at ih ⊢
      simp [wordHexChars_length, ih]
      omega

theorem sha256Compress_length (w hs : List Nat) :
    (sha256Compress w hs).length = 8 :=
  rfl

theorem sha256_foldl_length (blocks : List (List Nat)) (init : List Nat)
    (h : init.length = 8) :
    (blocks.foldl
      (fun hs block => sha256Compress (sha256Schedule (bytesToWordsBE block)) hs)
      init).length = 8 := by
  induction blocks generalizing init with
  | nil => simpa using h
  | cons b rest ih =>
      simp only [List.foldl_cons]
      exact ih _ (sha256Compress_length _ _)

theorem sha256Digest_length (msg : List Nat) : (sha256Digest msg).length = 8 := by
  rw [sha256Digest]
  exact sha256_foldl_length _ _ rfl

theorem sha256Hex_length (s : String) : (sha256Hex s).length = 64 := by
  show (String.mk (wordsToHexChars (sha256Digest (utf8Bytes s)))).data.length = 64
  simp [wordsToHexChars_length, sha256Digest_length]


/-- Unfolded form of the `components.join('|')` digest input. -/
theorem digestInput_eq (s : PartialAppState) :
    digestInput s =
      jsOrEmpty s.pathname ++ "|" ++ jsOrEmpty s.domFingerprint ++ "|" ++
        jsOrEmpty s.modalOpen ++ "|" ++ jsOrEmpty s.viewport := rfl

/-- Cancellation for the four-component bar-joined string: if three
components agree, the remaining one is determined. -/
theorem joinBar_component_inj (p f m v p' f' m' v' : String)
    (h : p ++ "|" ++ f ++ "|" ++ m ++ "|" ++ v =
      p' ++ "|" ++ f' ++ "|" ++ m' ++ "|" ++ v') :
    (f = f' → m = m' → v = v' → p = p') ∧
    (p = p' → m = m' → v = v' → f = f') ∧
    (p = p' → f = f' → v = v' → m = m') ∧
    (p = p' → f = f' → m = m' → v = v') := by
  have hd := congrArg String.data h
  simp only [String.data_append, List.append_assoc] at hd
  refine ⟨?_, ?_, ?_, ?_⟩
  · intro h1 h2 h3
    subst h1; subst h2; subst h3
    exact String.ext (List.append_cancel_right hd)
  · intro h1 h2 h3
    subst h1; subst h2; subst h3
    exact String.ext (List.append_cancel_right
      (List.append_cancel_left (List.append_cancel_left hd)))
  · intro h1 h2 h3
    subst h1; subst h2; subst h3
    exact String.ext (List.append_cancel_right
      (List.append_cancel_left (List.append_cancel_left
        (List.append_cancel_left (List.append_cancel_left hd)))))
  · intro h1 h2 h3
    subst h1; subst h2; subst h3
    exact String.ext (List.append_cancel_left (List.append_cancel_left
      (List.append_cancel_left (List.append_cancel_left
        (List.append_cancel_left (List.append_cancel_left hd))))))

/-- C1: with no custom identity function configured, `computeStateId` is a
pure function of exactly the four components pathname, domFingerprint,
modalOpen and viewport — two partial states agreeing on those four fields
receive the identical id, whatever their other fields — and the id is a
fixed-length string of 16 characters. -/
theorem computeStateId_depends_only_on_four_components
    (opts : StateManagerOptions) (hc : opts.customIdentity = none)
    (s1 s2 : PartialAppState)
    (hp : s1.pathname = s2.pathname)
    (hf : s1.domFingerprint = s2.domFingerprint)
    (hm : s1.modalOpen = s2.modalOpen)
    (hv : s1.viewport = s2.viewport) :
    computeStateId opts s1 = computeStateId opts s2 ∧
      (computeStateId opts s1).length = 16 := by
  have hd : digestInput s1 = digestInput s2 := by
    simp [digestInput, hp, hf, hm, hv]
  constructor
  · simp [computeStateId, hc, hd]
  · simp [computeStateId, hc, jsSlice_length, sha256Hex_length]

/-- A default-configured `StateManager` (no custom identity). -/
def smDefaults : StateManagerOptions := {}

/-- Two states agreeing on the four identity components and differing in
every other populated field. -/
def c1StateA : PartialAppState :=
  { pathname := some "/dash?tab=1", domFingerprint := some "ab12cd34ef56",
    modalOpen := none, viewport := some "desktop",
    id := some "old-id", url := some "http://a.example/dash?tab=1",
    title := some "Dashboard A", timestamp := some 11,
    dbSnapshot := some "rows:3", authState := some "alice" }

/-- Companion of `c1StateA` with every non-identity field changed. -/
def c1StateB : PartialAppState :=
  { pathname := some "/dash?tab=1", domFingerprint := some "ab12cd34ef56",
    modalOpen := none, viewport := some "desktop",
    id := some "new-id", url := some "http://b.example/other",
    title := some "Dashboard B", timestamp := some 99,
    formState := some { selector := "#f", fields := [("q", "x")] } }

/-- Witness for C1 at a concrete pair of states. -/
theorem computeStateId_depends_only_on_four_components_witness :
    smDefaults.customIdentity = none ∧
    c1StateA.pathname = c1StateB.pathname ∧
    c1StateA.domFingerprint = c1StateB.domFingerprint ∧
    c1StateA.modalOpen = c1StateB.modalOpen ∧
    c1StateA.viewport = c1StateB.viewport ∧
    c1StateA.title ≠ c1StateB.title ∧
    (computeStateId smDefaults c1StateA = computeStateId smDefaults c1StateB ∧
      (computeStateId smDefaults c1StateA).length = 16) :=
  ⟨rfl, rfl, rfl, rfl, rfl, by decide,
    computeStateId_depends_only_on_four_components smDefaults rfl c1StateA c1StateB
      rfl rfl rfl rfl⟩

/-- State with a `null` modal marker. -/
def c2StateNull : PartialAppState :=
  { pathname := some "/settings", domFingerprint := some "fp9",
    modalOpen := none, viewport := some "mobile" }

/-- The same state except the modal marker is the empty string — a distinct
value of the `modalOpen` component. -/
def c2StateEmpty : PartialAppState :=
  { pathname := some "/settings", domFingerprint := some "fp9",
    modalOpen := some "", viewport := some "mobile" }

/-- C2 is false as stated: changing the `modalOpen` component alone from
`null` to `''` (two distinct values, the other three components fixed) does
not change the id, because `|| ''` collapses both to the same digest
input. -/
theorem computeStateId_null_empty_modal_collision :
    c2StateNull.modalOpen ≠ c2StateEmpty.modalOpen ∧
    c2StateNull.pathname = c2StateEmpty.pathname ∧
    c2StateNull.domFingerprint = c2StateEmpty.domFingerprint ∧
    c2StateNull.viewport = c2StateEmpty.viewport ∧
    computeStateId smDefaults c2StateNull = computeStateId smDefaults c2StateEmpty := by
  refine ⟨by decide, rfl, rfl, rfl, ?_⟩
  have hd : digestInput c2StateNull = digestInput c2StateEmpty := rfl
  show jsSlice (sha256Hex (digestInput c2StateNull)) 16 =
    jsSlice (sha256Hex (digestInput c2StateEmpty)) 16
  rw [hd]

/-- C2 (amended): changing any one of the four components alone — with the
other three held fixed — always changes the digest input string that is
hashed into the id, provided the two values of the changed component remain
distinct after the JS `|| ''` coercion (`null`/`undefined` and `''` all
collapse to the empty component, the case the counterexample exhibits); the
id is the 16-character truncated SHA-256 of this input. -/
theorem digestInput_changes_on_single_component (s1 s2 : PartialAppState)
    (hcase :
      (jsOrEmpty s1.pathname ≠ jsOrEmpty s2.pathname ∧
        jsOrEmpty s1.domFingerprint = jsOrEmpty s2.domFingerprint ∧
        jsOrEmpty s1.modalOpen = jsOrEmpty s2.modalOpen ∧
        jsOrEmpty s1.viewport = jsOrEmpty s2.viewport) ∨
      (jsOrEmpty s1.pathname = jsOrEmpty s2.pathname ∧
        jsOrEmpty s1.domFingerprint ≠ jsOrEmpty s2.domFingerprint ∧
        jsOrEmpty s1.modalOpen = jsOrEmpty s2.modalOpen ∧
        jsOrEmpty s1.viewport = jsOrEmpty s2.viewport) ∨
      (jsOrEmpty s1.pathname = jsOrEmpty s2.pathname ∧
        jsOrEmpty s1.domFingerprint = jsOrEmpty s2.domFingerprint ∧
        jsOrEmpty s1.modalOpen ≠ jsOrEmpty s2.modalOpen ∧
        jsOrEmpty s1.viewport = jsOrEmpty s2.viewport) ∨
      (jsOrEmpty s1.pathname = jsOrEmpty s2.pathname ∧
        jsOrEmpty s1.domFingerprint = jsOrEmpty s2.domFingerprint ∧
        jsOrEmpty s1.modalOpen = jsOrEmpty s2.modalOpen ∧
        jsOrEmpty s1.viewport ≠ jsOrEmpty s2.viewport)) :
    digestInput s1 ≠ digestInput s2 := by
  intro heq
  rw [digestInput_eq, digestInput_eq] at heq
  have hinj := joinBar_component_inj _ _ _ _ _ _ _ _ heq
  rcases hcase with ⟨hne, h1, h2, h3⟩ | ⟨h1, hne, h2, h3⟩ |
    ⟨h1, h2, hne, h3⟩ | ⟨h1, h2, h3, hne⟩
  · exact hne (hinj.1 h1 h2 h3)
  · exact hne (hinj.2.1 h1 h2 h3)
  · exact hne (hinj.2.2.1 h1 h2 h3)
  · exact hne (hinj.2.2.2 h1 h2 h3)

/-- Copy of `c1StateA` with only the viewport component changed. -/
def c2ViewportVariant : PartialAppState :=
  { c1StateA with viewport := some "tablet" }

/-- Witness for the amended C2: a lone viewport change with a distinct
coerced value changes the digest input. -/
theorem digestInput_changes_on_single_component_witness :
    jsOrEmpty c1StateA.viewport ≠ jsOrEmpty c2ViewportVariant.viewport ∧
    digestInput c1StateA ≠ digestInput c2ViewportVariant :=
  ⟨by decide,
    digestInput_changes_on_single_component c1StateA c2ViewportVariant
      (Or.inr (Or.inr (Or.inr ⟨rfl, rfl, rfl, by decide⟩)))⟩

/-- C3: the fingerprint serialization is canonical in element order — the
per-element signatures are sorted before joining, so permuting the element
list (however the DOM happened to order it) leaves both the serialized
string and the hashed, truncated fingerprint unchanged. -/
theorem serializeFingerprint_perm_invariant (sens : Sensitivity)
    (l l' : List FPElem) (h : l.Perm l') :
    serializeFingerprint sens l = serializeFingerprint sens l' ∧
      captureDomFingerprint sens l = captureDomFingerprint sens l' := by
  have hsig : (fpSignatures sens l).Perm (fpSignatures sens l') := by
    simpa [fpSignatures] using
      h.filterMap (fun e => if fpSkipHidden e then none else some (buildSignature sens e))
  have hsorted :
      (fpSignatures sens l).insertionSort fpStrLe =
        (fpSignatures sens l').insertionSort fpStrLe := by
    apply List.eq_of_perm_of_sorted (r := fpStrLe)
    · exact ((List.perm_insertionSort _ _).trans hsig).trans
        (List.perm_insertionSort _ _).symm
    · exact List.sorted_insertionSort _ _
    · exact List.sorted_insertionSort _ _
  refine ⟨?_, ?_⟩
  · simp [serializeFingerprint, hsorted]
  · simp [captureDomFingerprint, serializeFingerprint, hsorted]

/-- Two visible fingerprint elements used by the C3 witness. -/
def c3Link : FPElem :=
  { tagName := "A", role := none, textContent := "Docs", href := some "/docs" }

/-- Second element of the C3 witness. -/
def c3Button : FPElem :=
  { tagName := "BUTTON", role := some "button", textContent := "Run",
    idAttr := some "run" }

/-- Witness for C3: swapping two elements leaves the fingerprint alone. -/
theorem serializeFingerprint_perm_invariant_witness :
    serializeFingerprint .medium [c3Link, c3Button] =
        serializeFingerprint .medium [c3Button, c3Link] ∧
      captureDomFingerprint .medium [c3Link, c3Button] =
        captureDomFingerprint .medium [c3Button, c3Link] :=
  serializeFingerprint_perm_invariant .medium _ _ (List.Perm.swap c3Button c3Link [])

/-- A visible element carrying an `id` attribute. -/
def c4Elem : FPElem :=
  { tagName := "BUTTON", role := none, textContent := "Save",
    idAttr := some "save-btn" }

/-- C4 is false as stated: at `low` sensitivity the signature is not
tag-and-role only — the key identifying attributes (`id`, `name`, `type`,
`href`, `aria-label`, `data-testid`) are appended at every sensitivity
tier, so an element with an `id` gets a `low` signature strictly longer
than its tag-and-role prefix. -/
theorem buildSignature_low_not_tag_role_only :
    buildSignature .low c4Elem ≠ fpTagRole c4Elem := by decide

/-- C4 (amended): the signature tiers differ exactly as the source builds
them — `low` is tag and role followed by the key-attribute blocks; `medium`
additionally inserts the truncated text content before the attributes;
`high` additionally inserts the rounded screen position; the key-attribute
suffix is present in every tier. -/
theorem buildSignature_tiers (e : FPElem) :
    buildSignature .low e = fpTagRole e ++ fpAttrSuffix e ∧
    buildSignature .medium e = fpTagRole e ++ fpTextPart e ++ fpAttrSuffix e ∧
    buildSignature .high e =
      fpTagRole e ++ fpTextPart e ++ fpPosPart e ++ fpAttrSuffix e := by
  refine ⟨rfl, rfl, ?_⟩
  show (fpTagRole e ++ fpTextPart e ++ toString (jsRound e.rectX) ++ "," ++
      toString (jsRound e.rectY)) ++ fpAttrSuffix e = _
  simp [fpPosPart, String.append_assoc]

/-- The capture loop ignores password and hidden inputs entirely: running
it over any input list equals running it over the list with those inputs
removed (their keys are computed before the skip, so they cannot even
perturb the `field-N` fallback numbering). -/
theorem captureFormFieldsFrom_skips_sensitive (inputs : List FormInput)
    (acc : List (String × String)) :
    captureFormFieldsFrom acc inputs =
      captureFormFieldsFrom acc (inputs.filter (fun i => !sensitiveInput i)) := by
  induction inputs generalizing acc with
  | nil => rfl
  | cons i rest ih =>
      by_cases hs : sensitiveInput i = true
      · simpa [captureFormFieldsFrom, hs] using ih acc
      · have hs' : sensitiveInput i = false := by simpa using hs
        by_cases hc : (i.typeAttr == "checkbox" || i.typeAttr == "radio") = true
        · simpa [captureFormFieldsFrom, hs', hc] using
            ih (objSet acc (formFieldName acc.length i)
              (if i.checked then "checked" else "unchecked"))
        · have hc' : (i.typeAttr == "checkbox" || i.typeAttr == "radio") = false := by
            simpa using hc
          simpa [captureFormFieldsFrom, hs', hc'] using
            ih (objSet acc (formFieldName acc.length i) i.value)

/-- C5: the snapshot `captureFormState` produces never contains an entry
from an input of type `password` or `hidden` — the snapshot of any form
equals the snapshot of the same form with those inputs deleted, so such
fields contribute neither keys nor values to the `fields` record, whatever
the other field types present. -/
theorem captureFormState_excludes_sensitive_fields (f : FormElem) :
    captureFormState (some f) =
      some ({ selector := f.formSelector,
              fields := captureFormFields
                (f.inputs.filter (fun i => !sensitiveInput i)) } : FormSnapshot) := by
  have h : captureFormFields f.inputs =
      captureFormFields (f.inputs.filter (fun i => !sensitiveInput i)) :=
    captureFormFieldsFrom_skips_sensitive f.inputs []
  have h2 : captureFormState (some f) = some ({ selector := f.formSelector, fields := captureFormFields f.inputs } : FormSnapshot) := rfl
  rw [h2, h]

/-- C6: `prioritizeActions` returns a permutation of its input, sorted in
descending order of the additive `getPriority` score, and ties preserve the
input order (for every score `q`, the elements scoring `q` appear in the
output exactly as they appear in the input). -/
theorem prioritizeActions_sorts_by_priority (l : List DiscoveredAction) :
    (prioritizeActions l).Perm l ∧
    (prioritizeActions l).Pairwise (fun a b => getPriority b ≤ getPriority a) ∧
    ∀ q : Rat,
      (prioritizeActions l).filter (fun a => decide (getPriority a = q)) =
        l.filter (fun a => decide (getPriority a = q)) := by
  refine ⟨List.perm_insertionSort _ _, ?_, ?_⟩
  · exact List.sorted_insertionSort priorityGe l
  intro q
  set p : DiscoveredAction → Bool := fun a => decide (getPriority a = q) with hp
  have hc_all : ∀ x ∈ l.filter p, p x = true := fun x hx => (List.mem_filter.mp hx).2
  have hpw : (l.filter p).Pairwise priorityGe := by
    apply List.pairwise_of_forall_mem_list
    intro a ha b hb
    have ha' : getPriority a = q := by simpa [hp] using hc_all a ha
    have hb' : getPriority b = q := by simpa [hp] using hc_all b hb
    show getPriority b ≤ getPriority a
    rw [ha', hb']
  have h1 : List.Sublist (l.filter p) (prioritizeActions l) :=
    List.sublist_insertionSort hpw (List.filter_sublist l)
  have h2 : (l.filter p).filter p = l.filter p := List.filter_eq_self.mpr hc_all
  have h3 : List.Sublist (l.filter p) ((prioritizeActions l).filter p) := by
    have := h1.filter p
    rwa [h2] at this
  have h4 : ((prioritizeActions l).filter p).Perm (l.filter p) :=
    (List.perm_insertionSort priorityGe l).filter p
  exact (h3.eq_of_length h4.length_eq.symm).symm

/-- The destructive "Delete" button of the C7 counterexample, promoted by a
large stacking order. -/
def c7Delete : DiscoveredAction :=
  { type := "click", selector := "#del", label := "Delete", tagName := "button",
    role := none, visible := true, enabled := true, destructive := true,
    boundingBox := some { x := 0, y := 0, width := 80, height := 24 },
    zIndex := some 3000 }

/-- The non-destructive "Submit" button of the C7 counterexample. -/
def c7Submit : DiscoveredAction :=
  { type := "click", selector := "#sub", label := "Submit", tagName := "button",
    role := none, visible := true, enabled := true, destructive := false,
    boundingBox := some { x := 0, y := 40, width := 80, height := 24 },
    zIndex := some 0 }

/-- C7 is false as stated: the z-index bonus is unbounded (`zIndex / 100`),
so a destructive "Delete" at stacking order 3000 scores 10 − 5 + 30 = 35
and outranks a non-destructive "Submit" at stacking order 0 scoring
10 + 15 = 25 — the output places Delete first even though Submit came
first in the input. -/
theorem prioritizeActions_delete_can_precede_submit :
    c7Delete.destructive = true ∧ c7Delete.label = "Delete" ∧
    c7Submit.destructive = false ∧ c7Submit.label = "Submit" ∧
    prioritizeActions [c7Submit, c7Delete] = [c7Delete, c7Submit] := by
  refine ⟨rfl, rfl, rfl, rfl, ?_⟩
  have hd : getPriority c7Delete = 35 := by
    have h0 : getPriority c7Delete = 0 + 10 - 5 + ((3000 : Int) : Rat) / 100 := rfl
    rw [h0]
    norm_num
  have hs : getPriority c7Submit = 25 := by
    have h0 : getPriority c7Submit = 0 + 10 + 15 + ((0 : Int) : Rat) / 100 := rfl
    rw [h0]
    norm_num
  have hord : ¬ priorityGe c7Submit c7Delete := by
    show ¬ (getPriority c7Delete ≤ getPriority c7Submit)
    rw [hd, hs]
    norm_num
  simp [prioritizeActions, List.insertionSort, List.orderedInsert, hord]

/-- The accumulator chain of `getPriority` written as a sum of independent
indicator terms. -/
theorem getPriority_eq (a : DiscoveredAction) :
    getPriority a =
      (if a.tagName = "button" ∨ a.tagName = "a" then (10 : Rat) else 0) +
      (if a.tagName ∈ ["input", "select", "textarea"] then (5 : Rat) else 0) +
      (if containsSub "nav" (jsToLower a.label) then (8 : Rat) else 0) +
      (if submitLabelMatch a.label then (15 : Rat) else 0) +
      (if a.destructive then (-5 : Rat) else 0) +
      ((a.zIndex.getD 0 : Int) : Rat) / 100 := by
  simp only [getPriority]
  split_ifs <;> ring

/-- Score bound for a destructive action labeled "Delete". -/
theorem getPriority_delete_le (a : DiscoveredAction)
    (h1 : a.label = "Delete") (h2 : a.destructive = true) :
    getPriority a ≤ 5 + ((a.zIndex.getD 0 : Int) : Rat) / 100 := by
  have hnav : containsSub "nav" (jsToLower a.label) = false := by rw [h1]; decide
  have hsub : submitLabelMatch a.label = false := by rw [h1]; decide
  rw [getPriority_eq, hnav, hsub, h2]
  by_cases hb : a.tagName = "button" ∨ a.tagName = "a"
  · have hf : ¬ a.tagName ∈ ["input", "select", "textarea"] := by
      rcases hb with hb | hb <;> simp [hb]
    rw [if_pos hb, if_neg hf]
    norm_num
  · by_cases hf : a.tagName ∈ ["input", "select", "textarea"]
    · rw [if_neg hb, if_pos hf]
      norm_num
    · rw [if_neg hb, if_neg hf]
      norm_num

/-- Score bound for a non-destructive action labeled "Submit". -/
theorem getPriority_submit_ge (a : DiscoveredAction)
    (h1 : a.label = "Submit") (h2 : a.destructive = false) :
    15 + ((a.zIndex.getD 0 : Int) : Rat) / 100 ≤ getPriority a := by
  have hnav : containsSub "nav" (jsToLower a.label) = false := by rw [h1]; decide
  have hsub : submitLabelMatch a.label = true := by rw [h1]; decide
  rw [getPriority_eq, hnav, hsub, h2]
  by_cases hb : a.tagName = "button" ∨ a.tagName = "a"
  · have hf : ¬ a.tagName ∈ ["input", "select", "textarea"] := by
      rcases hb with hb | hb <;> simp [hb]
    rw [if_pos hb, if_neg hf]
    norm_num
  · by_cases hf : a.tagName ∈ ["input", "select", "textarea"]
    · rw [if_neg hb, if_pos hf]
      norm_num
    · rw [if_neg hb, if_neg hf]
      norm_num

/-- C7 (amended): when the two actions carry the same stacking order (so
the unbounded z-index bonus cannot invert the comparison), every occurrence
of the non-destructive "Submit" action follows later in the input ordering
sense — concretely, any position of "Submit" in `prioritizeActions` output
precedes any position of the destructive "Delete" action, whatever the tag
names: the score gap is at least 10. -/
theorem prioritizeActions_submit_before_delete (l : List DiscoveredAction)
    (d s : DiscoveredAction)
    (hd1 : d.destructive = true) (hd2 : d.label = "Delete")
    (hs1 : s.destructive = false) (hs2 : s.label = "Submit")
    (hz : d.zIndex.getD 0 = s.zIndex.getD 0)
    (i j : Nat)
    (hi : (prioritizeActions l)[i]? = some d)
    (hj : (prioritizeActions l)[j]? = some s) :
    j < i := by
  have hlt : getPriority d < getPriority s := by
    have h1 := getPriority_delete_le d hd2 hd1
    have h2 := getPriority_submit_ge s hs2 hs1
    rw [hz] at h1
    linarith
  obtain ⟨hiLen, hiEq⟩ := List.getElem?_eq_some.mp hi
  obtain ⟨hjLen, hjEq⟩ := List.getElem?_eq_some.mp hj
  by_contra hji
  have hij : i ≤ j := Nat.le_of_not_lt hji
  rcases Nat.lt_or_ge i j with hij' | hge
  · have hsorted : (prioritizeActions l).Pairwise priorityGe :=
      List.sorted_insertionSort priorityGe l
    have hp := List.pairwise_iff_getElem.mp hsorted i j hiLen hjLen hij'
    rw [hiEq, hjEq] at hp
    exact absurd hlt (not_lt.mpr hp)
  · have heq : i = j := Nat.le_antisymm hij hge
    subst heq
    rw [hiEq] at hjEq
    rw [hjEq] at hlt
    exact absurd hlt (lt_irrefl _)

/-- Copy of the "Delete" action at stacking order 0. -/
def c7DeleteFlat : DiscoveredAction := { c7Delete with zIndex := some 0 }

/-- Witness for the amended C7 on a concrete two-action state with equal
stacking orders. -/
theorem prioritizeActions_submit_before_delete_witness :
    c7DeleteFlat.destructive = true ∧ c7DeleteFlat.label = "Delete" ∧
    c7Submit.destructive = false ∧ c7Submit.label = "Submit" ∧
    c7DeleteFlat.zIndex.getD 0 = c7Submit.zIndex.getD 0 ∧
    (prioritizeActions [c7DeleteFlat, c7Submit])[1]? = some c7DeleteFlat ∧
    (prioritizeActions [c7DeleteFlat, c7Submit])[0]? = some c7Submit ∧
    (0 : Nat) < 1 := by
  have hd : getPriority c7DeleteFlat = 5 := by
    have h0 : getPriority c7DeleteFlat = 0 + 10 - 5 + ((0 : Int) : Rat) / 100 := rfl
    rw [h0]
    norm_num
  have hs : getPriority c7Submit = 25 := by
    have h0 : getPriority c7Submit = 0 + 10 + 15 + ((0 : Int) : Rat) / 100 := rfl
    rw [h0]
    norm_num
  have hord : ¬ priorityGe c7DeleteFlat c7Submit := by
    show ¬ (getPriority c7Submit ≤ getPriority c7DeleteFlat)
    rw [hd, hs]
    norm_num
  have hout : prioritizeActions [c7DeleteFlat, c7Submit] = [c7Submit, c7DeleteFlat] := by
    simp [prioritizeActions, List.insertionSort, List.orderedInsert, hord]
  have h1fact : (prioritizeActions [c7DeleteFlat, c7Submit])[1]? = some c7DeleteFlat := by
    rw [hout]
    rfl
  have h0fact : (prioritizeActions [c7DeleteFlat, c7Submit])[0]? = some c7Submit := by
    rw [hout]
    rfl
  exact ⟨rfl, rfl, rfl, rfl, rfl, h1fact, h0fact,
    prioritizeActions_submit_before_delete [c7DeleteFlat, c7Submit] c7DeleteFlat
      c7Submit rfl rfl rfl rfl rfl 1 0 h1fact h0fact⟩

/-- With `includeDisabled: false`, a step of the discovery loop only ever
accumulates records of enabled elements. -/
theorem discoverStep_enabled (pg : PageEnv) (opts : DAOptions)
    (extra : ElemDA → Bool) (hinc : opts.includeDisabled = false)
    (acc : List DiscoveredAction) (e : ElemDA)
    (hacc : ∀ a ∈ acc, a.enabled = true) :
    ∀ a ∈ discoverStep pg opts extra acc e, a.enabled = true := by
  intro a ha
  rw [discoverStep] at ha
  by_cases hig : shouldIgnore extra e = true
  · rw [if_pos hig] at ha
    exact hacc a ha
  · rw [if_neg hig] at ha
    simp only [hinc, Bool.not_false, Bool.true_and, Bool.not_not] at ha
    by_cases hmark : hasDisabledMarker e = true
    · rw [if_pos hmark] at ha
      exact hacc a ha
    · rw [if_neg hmark] at ha
      split_ifs at ha
      · exact hacc a ha
      · exact hacc a ha
      · exact hacc a ha
      · rcases List.mem_append.mp ha with h | h
        · exact hacc a h
        · have : a = toDiscoveredRecord pg e := List.mem_singleton.mp h
          subst this
          show (!hasDisabledMarker e) = true
          simp [Bool.not_eq_true] at hmark
          simp [hmark]

/-- With `includeDisabled: false`, the discovery loop only ever accumulates
records of enabled elements. -/
theorem discoverLoop_enabled (pg : PageEnv) (opts : DAOptions)
    (extra : ElemDA → Bool) (hinc : opts.includeDisabled = false)
    (elems : List ElemDA) :
    ∀ (acc : List DiscoveredAction), (∀ a ∈ acc, a.enabled = true) →
      ∀ a ∈ discoverLoop pg opts extra acc elems, a.enabled = true := by
  induction elems with
  | nil =>
      intro acc hacc a ha
      rw [discoverLoop] at ha
      exact hacc a ha
  | cons e rest ih =>
      intro acc hacc a ha
      rw [discoverLoop] at ha
      by_cases hcap : acc.length ≥ opts.maxActions
      · rw [if_pos hcap] at ha
        exact hacc a ha
      · rw [if_neg hcap] at ha
        exact ih _ (discoverStep_enabled pg opts extra hinc acc e hacc) a ha

/-- With `includeDisabled: true`, the disabled-element test in the loop
body is transparent. -/
theorem discoverStep_includeDisabled (pg : PageEnv) (opts : DAOptions)
    (extra : ElemDA → Bool) (hinc : opts.includeDisabled = true)
    (acc : List DiscoveredAction) (e : ElemDA) :
    discoverStep pg opts extra acc e = discoverStepAll pg opts extra acc e := by
  rw [discoverStep, discoverStepAll]
  simp only [hinc, Bool.not_true, Bool.false_and, Bool.false_eq_true, if_false]

/-- With `includeDisabled: true`, the whole loop matches the filterless
loop. -/
theorem discoverLoop_includeDisabled (pg : PageEnv) (opts : DAOptions)
    (extra : ElemDA → Bool) (hinc : opts.includeDisabled = true)
    (elems : List ElemDA) :
    ∀ acc, discoverLoop pg opts extra acc elems =
      discoverLoopAll pg opts extra acc elems := by
  induction elems with
  | nil =>
      intro acc
      rw [discoverLoop, discoverLoopAll]
  | cons e rest ih =>
      intro acc
      rw [discoverLoop, discoverLoopAll,
        discoverStep_includeDisabled pg opts extra hinc acc e]
      by_cases hcap : acc.length ≥ opts.maxActions
      · rw [if_pos hcap, if_pos hcap]
      · rw [if_neg hcap, if_neg hcap, ih]

/-- C8: an element carrying an explicit disabled marker (a `disabled`
attribute or `aria-disabled="true"`) is excluded from `discoverActions`
output when `includeDisabled` is `false` (the default — every returned
record is of an enabled element), and with `includeDisabled: true` the
disabled filter is transparent: the output equals that of the same
pipeline with the filter removed, so a marked element is included subject
only to the remaining filters (selector match, ignore list, visibility,
viewport, minimum size, deduplication, action cap). -/
theorem discoverActions_disabled_filtering :
    (∀ (pg : PageEnv) (opts : DAOptions) (extra : ElemDA → Bool)
      (elems : List ElemDA), opts.includeDisabled = false →
      ∀ a ∈ discoverActions pg opts extra elems, a.enabled = true) ∧
    (∀ (pg : PageEnv) (opts : DAOptions) (extra : ElemDA → Bool)
      (elems : List ElemDA), opts.includeDisabled = true →
      discoverActions pg opts extra elems = discoverActionsAll pg opts extra elems) := by
  constructor
  · intro pg opts extra elems hinc a ha
    rw [discoverActions] at ha
    rcases List.mem_map.mp ha with ⟨b, hb, hba⟩
    have hbraw : b ∈ discoverLoop pg opts extra [] (elems.filter matchesInteractive) :=
      (List.mem_insertionSort daOrder).mp hb
    have hben : b.enabled = true :=
      discoverLoop_enabled pg opts extra hinc _ [] (by simp) b hbraw
    rw [← hba]
    exact hben
  · intro pg opts extra elems hinc
    rw [discoverActions, discoverActionsAll,
      discoverLoop_includeDisabled pg opts extra hinc]

/-- Default window for the C8 witness. -/
def pg0 : PageEnv := {}

/-- Default discovery options (disabled elements excluded). -/
def opts0 : DAOptions := {}

/-- Discovery options requesting disabled elements. -/
def optsT : DAOptions := { includeDisabled := true }

/-- No caller-supplied extra ignore selectors. -/
def extra0 : ElemDA → Bool := fun _ => false

/-- A visible link carrying `aria-disabled="true"`. -/
def eC8Disabled : ElemDA :=
  { tagName := "A", idAttr := "adm", href := some "/admin",
    ariaDisabled := some "true", innerText := "Admin", textContent := "Admin",
    rectX := 0, rectY := 0, rectW := 100, rectH := 20,
    rectTop := 0, rectBottom := 20, rectLeft := 0, rectRight := 100 }

/-- A visible, enabled button. -/
def eC8Enabled : ElemDA :=
  { tagName := "BUTTON", idAttr := "ok", innerText := "OK", textContent := "OK",
    rectX := 10, rectY := 10, rectW := 80, rectH := 24,
    rectTop := 10, rectBottom := 34, rectLeft := 10, rectRight := 90 }

/-- The element list of the C8 witness, in document order. -/
def elemsC8 : List ElemDA := [eC8Disabled, eC8Enabled]

/-- Witness for C8: on a concrete page with one disabled link and one
enabled button, every record returned under the default options is of an
enabled element, and turning `includeDisabled` on makes the output equal
to the filterless pipeline's. -/
theorem discoverActions_disabled_filtering_witness :
    opts0.includeDisabled = false ∧
    postAdjust (toDiscoveredRecord pg0 eC8Enabled) ∈
      discoverActions pg0 opts0 extra0 elemsC8 ∧
    (postAdjust (toDiscoveredRecord pg0 eC8Enabled)).enabled = true ∧
    optsT.includeDisabled = true ∧
    discoverActions pg0 optsT extra0 elemsC8 =
      discoverActionsAll pg0 optsT extra0 elemsC8 :=
  ⟨rfl,
    by decide,
    discoverActions_disabled_filtering.1 pg0 opts0 extra0 elemsC8 rfl
      (postAdjust (toDiscoveredRecord pg0 eC8Enabled)) (by decide),
    rfl,
    discoverActions_disabled_filtering.2 pg0 optsT extra0 elemsC8 rfl⟩

/-- C9: `AccessibilityValidator.validate` never propagates a scan failure:
it is a total function of the scan outcome, and when the underlying axe
scan throws, the caller still receives a normal `ValidatorResult` whose
issue list is exactly one issue of severity `moderate` with rule
`scan-error` describing the failure. -/
theorem validate_scan_error_is_moderate_issue (cfg : A11yConfig)
    (vp msg : String) (elapsed : Nat) (hen : cfg.enabled = true) :
    validate cfg vp (.error msg) elapsed =
      { validator := "accessibility",
        issues := [scanErrorIssue vp msg],
        duration := elapsed } ∧
    (scanErrorIssue vp msg).severity = .moderate ∧
    (scanErrorIssue vp msg).rule = "scan-error" ∧
    (scanErrorIssue vp msg).description = "Accessibility scan failed: " ++ msg := by
  refine ⟨?_, rfl, rfl, rfl⟩
  simp [validate, hen]

/-- The default validator configuration. -/
def a11yDefaults : A11yConfig := {}

/-- Witness for C9 at a concrete configuration and failure message. -/
theorem validate_scan_error_is_moderate_issue_witness :
    a11yDefaults.enabled = true ∧
    (validate a11yDefaults "desktop" (.error "axe crashed") 12 =
      { validator := "accessibility",
        issues := [scanErrorIssue "desktop" "axe crashed"],
        duration := 12 } ∧
      (scanErrorIssue "desktop" "axe crashed").severity = .moderate ∧
      (scanErrorIssue "desktop" "axe crashed").rule = "scan-error" ∧
      (scanErrorIssue "desktop" "axe crashed").description =
        "Accessibility scan failed: " ++ "axe crashed") :=
  ⟨rfl, validate_scan_error_is_moderate_issue a11yDefaults "desktop" "axe crashed" 12 rfl⟩

/-- C10: issues derived from axe `incomplete` checks bypass the configured
filters — every incomplete check contributes exactly one issue of severity
`minor` whose rule is the check id suffixed `-incomplete`, and the list of
these issues is a suffix of the result for every configuration, in
particular when `minSeverity` is stricter than `minor` or the check's id is
in `ignoredRules`; those two filters act only on the violations prefix. -/
theorem validate_incomplete_bypasses_filters (cfg : A11yConfig) (vp : String)
    (res : AxeResults) (elapsed : Nat) (hen : cfg.enabled = true) :
    List.IsSuffix (res.incomplete.map (incompleteToIssue vp))
      (validate cfg vp (.ok res) elapsed).issues ∧
    (validate cfg vp (.ok res) elapsed).issues =
      res.violations.filterMap (violationToIssue cfg vp) ++
        res.incomplete.map (incompleteToIssue vp) ∧
    ∀ inc ∈ res.incomplete,
      (incompleteToIssue vp inc).severity = .minor ∧
      (incompleteToIssue vp inc).rule = inc.id ++ "-incomplete" := by
  refine ⟨?_, ?_, ?_⟩
  · refine ⟨res.violations.filterMap (violationToIssue cfg vp), ?_⟩
    simp [validate, hen]
  · simp [validate, hen]
  · intro inc _
    exact ⟨rfl, rfl⟩

/-- A configuration whose filters are as strict as possible about the rule
`label`: it is ignored outright and only critical issues pass the severity
filter. -/
def cfgStrict : A11yConfig :=
  { ignoredRules := ["label"], minSeverity := some .critical }

/-- An incomplete check for rule `label`. -/
def incC10 : AxeCheck :=
  { id := "label", description := "Ensures every input has a label",
    helpUrl := "https://dequeuniversity.example/label", help := "Inputs need labels",
    nodes := [{ html := "<input>", target := ["#form", "input"] }] }

/-- A minor-impact violation of the same rule `label`. -/
def vioC10 : AxeCheck :=
  { id := "label", impact := some "minor", description := "Missing label",
    helpUrl := "https://dequeuniversity.example/label", help := "Inputs need labels",
    nodes := [] }

/-- Scan results holding one violation and one incomplete check, both for
the ignored, sub-threshold rule `label`. -/
def resC10 : AxeResults := { violations := [vioC10], incomplete := [incC10] }

/-- Witness for C10: under the strict configuration the violation is
filtered out, yet the incomplete check still contributes its single minor
`label-incomplete` issue. -/
theorem validate_incomplete_bypasses_filters_witness :
    cfgStrict.enabled = true ∧
    cfgStrict.minSeverity = some .critical ∧
    cfgStrict.ignoredRules = ["label"] ∧
    (validate cfgStrict "desktop" (.ok resC10) 7).issues =
      [incompleteToIssue "desktop" incC10] ∧
    List.IsSuffix (resC10.incomplete.map (incompleteToIssue "desktop"))
      (validate cfgStrict "desktop" (.ok resC10) 7).issues ∧
    (incompleteToIssue "desktop" incC10).severity = .minor ∧
    (incompleteToIssue "desktop" incC10).rule = "label-incomplete" :=
  ⟨rfl, rfl, rfl, by decide,
    (validate_incomplete_bypasses_filters cfgStrict "desktop" resC10 7 rfl).1,
    ((validate_incomplete_bypasses_filters cfgStrict "desktop" resC10 7 rfl).2.2
      incC10 (by decide)).1,
    by decide⟩
